import Mathlib

/-!
Verification of the pose-bridge script `t265_precland_apriltags.py`.

The script converts a tracking camera's pose samples into the autopilot's
navigation frame, detects a landing fiducial tag, and sends navigation /
landing-target / confidence telemetry from independent periodic tasks.
Below, each relevant piece of the script is shallowly embedded as a Lean
definition; floating-point values are modelled by exact rationals or reals.
-/

/-! ## Confidence task (`send_confidence_level_dummy_message`)

The task reads the latest pose data (here reduced to its
`tracker_confidence` field, an integer) and the `current_confidence`
global.  It sends a `vision_position_delta` message carrying
`tracker_confidence * 100 / 3` whenever the confidence is in `0..3`, and
additionally a `statustext` notification when the confidence differs from
the previously emitted one (or none was emitted yet).  Out-of-range
confidence only logs a warning. -/

/-- Result of one invocation of the confidence task: the new value of the
`current_confidence` global, the percentage carried by the
`vision_position_delta` message (if one was sent), and whether an extra
`statustext` notification was sent. -/
structure ConfidenceOut where
  current_confidence : Option ℤ
  delta_msg : Option ℚ
  status_sent : Bool
deriving DecidableEq, Repr

/-- Embedding of `send_confidence_level_dummy_message` (source lines
278-309).  `data` is `None` when no pose sample has ever been stored,
otherwise `some` of its `tracker_confidence` field. -/
def send_confidence_level_dummy_message (data : Option ℤ)
    (current_confidence : Option ℤ) : ConfidenceOut :=
  match data with
  | none => ⟨current_confidence, none, false⟩
  | some conf =>
    if 0 ≤ conf ∧ conf ≤ 3 then
      -- delta message always sent for an in-range confidence
      if current_confidence = none ∨ current_confidence ≠ some conf then
        ⟨some conf, some ((conf : ℚ) * 100 / 3), true⟩
      else
        ⟨current_confidence, some ((conf : ℚ) * 100 / 3), false⟩
    else
      -- only `logging.warning`, no message, state untouched
      ⟨current_confidence, none, false⟩

/-- Feed a list of confidence values (one per scheduler tick, each with a
pose sample present) through the confidence task, returning the final
`current_confidence` and the number of `statustext` notifications sent. -/
def runConfidence (confs : List ℤ) (cur : Option ℤ) : Option ℤ × ℕ :=
  confs.foldl
    (fun acc c =>
      let out := send_confidence_level_dummy_message (some c) acc.1
      (out.current_confidence, acc.2 + if out.status_sent then 1 else 0))
    (cur, 0)

/-! ## Homogeneous transforms

4x4 homogeneous matrices over the reals model the numpy arrays used by the
script; matrix product models `numpy.dot`. -/

/-- A 4x4 homogeneous transform. -/
abbrev M4 := Matrix (Fin 4) (Fin 4) ℝ

noncomputable section

/-- Embedding of `tf.euler_matrix(0, 0, h, 'sxyz')` (the `transformations`
library with static xyz axes and roll = pitch = 0): a pure yaw rotation
about the z axis. -/
def eulerZ (h : ℝ) : M4 :=
  !![Real.cos h, -Real.sin h, 0, 0;
     Real.sin h,  Real.cos h, 0, 0;
     0, 0, 1, 0;
     0, 0, 0, 1]

/-- The three assignments `M[0][3] = v0; M[1][3] = v1; M[2][3] = v2`
overwriting the translation column of a homogeneous matrix. -/
def setTranslation (M : M4) (v : Fin 3 → ℝ) : M4 := fun i j =>
  if j = 3 then
    if i = 0 then v 0 else if i = 1 then v 1 else if i = 2 then v 2 else M i j
  else M i j

/-- Embedding of `tf.quaternion_matrix([w, x, y, z])`: the homogeneous
rotation matrix of a (not necessarily unit) quaternion.  The library
normalizes by `n = w^2+x^2+y^2+z^2` (after which only pairwise products
divided by `n` remain, so no square root appears) and returns the identity
when `n` is numerically zero; the floating `n < eps` test is modelled as
`n = 0` in exact arithmetic. -/
def quaternion_matrix (w x y z : ℝ) : M4 :=
  let n := w * w + x * x + y * y + z * z
  if n = 0 then 1 else
    !![1 - 2 * (y * y + z * z) / n, 2 * (x * y - z * w) / n, 2 * (x * z + y * w) / n, 0;
       2 * (x * y + z * w) / n, 1 - 2 * (x * x + z * z) / n, 2 * (y * z - x * w) / n, 0;
       2 * (x * z - y * w) / n, 2 * (y * z + x * w) / n, 1 - 2 * (x * x + y * y) / n, 0;
       0, 0, 0, 1]

/-- The `H_aeroRef_T265Ref` mount constant shared by both supported camera
orientations (source lines 155-167). -/
def H_aeroRef_T265Ref : M4 :=
  !![0, 0, -1, 0;
     1, 0,  0, 0;
     0, -1, 0, 0;
     0, 0,  0, 1]

/-- `H_T265body_aeroBody` for camera orientation 0 (forward, USB right). -/
def H_T265body_aeroBody_forward : M4 := H_aeroRef_T265Ref⁻¹

/-- `H_T265body_aeroBody` for camera orientation 1 (downfacing, USB right). -/
def H_T265body_aeroBody_down : M4 :=
  !![0, 1,  0, 0;
     1, 0,  0, 0;
     0, 0, -1, 0;
     0, 0,  0, 1]

/-- Startup selection of the mount transform pair; an unsupported
orientation value is a fatal configuration error (`sys.exit(1)`),
modelled as `none`. -/
def cameraOrientationMatrices (orientation : ℕ) : Option (M4 × M4) :=
  if orientation = 0 then some (H_aeroRef_T265Ref, H_T265body_aeroBody_forward)
  else if orientation = 1 then some (H_aeroRef_T265Ref, H_T265body_aeroBody_down)
  else none

/-! ## Frame Converter (main-loop pose processing, source lines 540-563) -/

/-- Embedding of the per-sample pose processing in the main loop:
build `H_T265Ref_T265body` from the sample's quaternion, overwrite its
translation column with the translation times `scale_factor` (done under
`frame_mutex`), compose with the mount constants, optionally conjugate by
the body-offset transform, and optionally right-compose with the initial
compass yaw. -/
def processPose (H_aeroRef_T265Ref_m H_T265body_aeroBody_m : M4)
    (body_offset_enabled : ℕ) (body_offset_x body_offset_y body_offset_z : ℝ)
    (compass_enabled : ℕ) (heading_north_yaw : Option ℝ)
    (scale_factor : ℝ) (qw qx qy qz tx ty tz : ℝ) : M4 :=
  let H_T265Ref_T265body :=
    setTranslation (quaternion_matrix qw qx qy qz)
      ![tx * scale_factor, ty * scale_factor, tz * scale_factor]
  let H1 := H_aeroRef_T265Ref_m * (H_T265Ref_T265body * H_T265body_aeroBody_m)
  let H2 :=
    if body_offset_enabled = 1 then
      let H_body_camera :=
        setTranslation (eulerZ 0) ![body_offset_x, body_offset_y, body_offset_z]
      H_body_camera * (H1 * H_body_camera⁻¹)
    else H1
  if compass_enabled = 1 then
    match heading_north_yaw with
    | some h => H2 * eulerZ h
    | none => H2
  else H2

/-- The Frame Converter contract as the spec words it (section 4.1):
sensor-local transform from the quaternion with translation scaled by the
Scale Factor, composed as `mount_to_nav * sensor_local *
sensor_body_to_autopilot_body`, conjugated by the offset transform when
body offset is enabled, and right-composed with a yaw-only rotation when a
Heading Reference is set. -/
def specNavPose (mount_to_nav sensor_body_to_autopilot_body : M4)
    (body_offset_enabled : ℕ) (offset : Fin 3 → ℝ)
    (headingRef : Option ℝ)
    (scale : ℝ) (qw qx qy qz tx ty tz : ℝ) : M4 :=
  let sensor_local :=
    setTranslation (quaternion_matrix qw qx qy qz)
      ![scale * tx, scale * ty, scale * tz]
  let nav := mount_to_nav * sensor_local * sensor_body_to_autopilot_body
  let nav2 :=
    if body_offset_enabled = 1 then
      setTranslation 1 offset * nav * (setTranslation 1 offset)⁻¹
    else nav
  match headingRef with
  | some h => nav2 * eulerZ h
  | none => nav2

/-! ## AprilTag handling in the main loop (source lines 609-619) -/

/-- A detection returned by the AprilTag detector: the tag identity and its
camera-relative translation `pose_t`. -/
structure Tag where
  tag_id : ℕ
  pose_t : Fin 3 → ℝ

/-- The landing-target fields of the shared state: the
`is_landing_tag_detected` flag and the `H_camera_tag` matrix (initially
`None`). -/
structure LTState where
  is_landing_tag_detected : Bool
  H_camera_tag : Option M4

/-- `H_camera_tag` as built for a matching tag: `tf.euler_matrix(0,0,0)`
with its translation column overwritten by the tag's `pose_t`. -/
def tagTransform (t : Tag) : M4 :=
  setTranslation (eulerZ 0) t.pose_t

/-- One iteration of the `for tag in tags:` body: a tag whose id equals
`tag_landing_id` sets the flag and rebuilds `H_camera_tag`; any other tag
leaves the state alone. -/
def tagStep (tag_landing_id : ℕ) (s : LTState) (t : Tag) : LTState :=
  if t.tag_id = tag_landing_id then ⟨true, some (tagTransform t)⟩ else s

/-- The per-iteration tag handling: when the detector returned at least one
tag, fold the loop body over all of them; when it returned no tags, clear
the flag (keeping `H_camera_tag`). -/
def tagUpdate (tag_landing_id : ℕ) (st : LTState) (tags : List Tag) : LTState :=
  match tags with
  | [] => ⟨false, st.H_camera_tag⟩
  | _ :: _ => tags.foldl (tagStep tag_landing_id) st

/-! ## Landing-target sender (`send_land_target_message`, lines 218-254) -/

/-- Two-argument arctangent with the semantics of Python's
`math.atan2(y, x)` (range `(-pi, pi]`, `atan2 0 0 = 0`). -/
def atan2 (y x : ℝ) : ℝ :=
  if 0 < x then Real.arctan (y / x)
  else if x < 0 then
    if 0 ≤ y then Real.arctan (y / x) + Real.pi
    else Real.arctan (y / x) - Real.pi
  else
    if 0 < y then Real.pi / 2
    else if y < 0 then -(Real.pi / 2)
    else 0

/-- Payload of the `landing_target` message actually emitted: the two
angular offsets (radians) and the slant distance (meters). -/
structure LandingReport where
  x_offset_rad : ℝ
  y_offset_rad : ℝ
  distance : ℝ

/-- Embedding of `send_land_target_message`: reads the landing-target
fields of the shared state; sends nothing unless the flag is set and
`H_camera_tag` exists; returns early (no message, no exception, state
untouched) when the stored z translation is zero; otherwise emits the
bearing/range report.  The function performs no writes, so the stored
report survives for the next scheduled tick. -/
def send_land_target_message (st : LTState) : Option LandingReport :=
  match st.is_landing_tag_detected, st.H_camera_tag with
  | true, some H =>
    let x := H 0 3
    let y := H 1 3
    let z := H 2 3
    if z = 0 then none
    else some ⟨atan2 x z, atan2 y z, Real.sqrt (x * x + y * y + z * z)⟩
  | _, _ => none

/-! ## Attitude callback (`att_msg_callback`, source lines 360-367)

Registered on ATTITUDE messages when `compass_enabled == 1`.  Both
branches assign `heading_north_yaw = value.yaw`; they differ only in the
log level (`logging.info` on the first sample, `logging.debug` after). -/

/-- Embedding of `att_msg_callback`: the new value of the
`heading_north_yaw` global after one ATTITUDE message carrying `yaw`. -/
def att_msg_callback (heading_north_yaw : Option ℝ) (yaw : ℝ) : Option ℝ :=
  match heading_north_yaw with
  | none => some yaw      -- first sample: logging.info
  | some _ => some yaw    -- later samples: logging.debug

end

/-! ## Scale Factor concurrency (`scale_update` vs. main-loop scaling)

The calibration thread runs `with frame_mutex: scale_factor = v`; the
acquisition loop runs `with frame_mutex:` around the three assignments
`H[i][3] = translation_i * scale_factor`.  A small interleaving system
models the two threads and the lock; values are exact rationals. -/

/-- Which thread currently holds `frame_mutex`. -/
inductive LockOwner where
  | reader   -- the acquisition loop
  | writer   -- the scale-calibration thread
deriving DecidableEq, Repr

/-- Global state of the two-thread system: the lock, each thread's program
counter, the `scale_factor` global, and the three translation entries of
`H_T265Ref_T265body` written so far in the current iteration. -/
structure ScaleSys where
  lock : Option LockOwner
  rpc : ℕ
  wpc : ℕ
  scale_factor : ℚ
  hx : Option ℚ
  hy : Option ℚ
  hz : Option ℚ
deriving DecidableEq, Repr

/-- Atomic steps of the two threads, for a sample with translation
`(tx, ty, tz)`.  The acquisition loop (reader) acquires `frame_mutex`,
performs the three scaled-translation writes (each reading the current
`scale_factor`), and releases; the calibration thread (writer) acquires,
stores an arbitrary new scale, and releases.  Acquisition requires the
lock to be free. -/
inductive ScaleStep (tx ty tz : ℚ) : ScaleSys → ScaleSys → Prop where
  | rAcq (s : ScaleSys) (h1 : s.lock = none) (h2 : s.rpc = 0) :
      ScaleStep tx ty tz s { s with lock := some .reader, rpc := 1 }
  | rWX (s : ScaleSys) (h : s.rpc = 1) :
      ScaleStep tx ty tz s { s with hx := some (tx * s.scale_factor), rpc := 2 }
  | rWY (s : ScaleSys) (h : s.rpc = 2) :
      ScaleStep tx ty tz s { s with hy := some (ty * s.scale_factor), rpc := 3 }
  | rWZ (s : ScaleSys) (h : s.rpc = 3) :
      ScaleStep tx ty tz s { s with hz := some (tz * s.scale_factor), rpc := 4 }
  | rRel (s : ScaleSys) (h : s.rpc = 4) :
      ScaleStep tx ty tz s { s with lock := none, rpc := 0 }
  | wAcq (s : ScaleSys) (h1 : s.lock = none) (h2 : s.wpc = 0) :
      ScaleStep tx ty tz s { s with lock := some .writer, wpc := 1 }
  | wSet (s : ScaleSys) (v : ℚ) (h : s.wpc = 1) :
      ScaleStep tx ty tz s { s with scale_factor := v, wpc := 2 }
  | wRel (s : ScaleSys) (h : s.wpc = 2) :
      ScaleStep tx ty tz s { s with lock := none, wpc := 0 }

/-- Initial state: lock free, both threads at their top, no entry written
yet, initial scale `s0`. -/
def ScaleInit (s0 : ℚ) : ScaleSys :=
  ⟨none, 0, 0, s0, none, none, none⟩

/-- States reachable by any interleaving of the two threads. -/
def ScaleReachable (tx ty tz : ℚ) (s0 : ℚ) (s : ScaleSys) : Prop :=
  Relation.ReflTransGen (ScaleStep tx ty tz) (ScaleInit s0) s

/-- Inductive invariant of the system: a thread past its acquire holds the
lock, and every translation entry written in the current critical section
was scaled by the scale value still current. -/
def ScaleInv (tx ty tz : ℚ) (s : ScaleSys) : Prop :=
  (s.rpc ≠ 0 → s.lock = some .reader) ∧
  (s.wpc ≠ 0 → s.lock = some .writer) ∧
  (s.rpc = 2 → s.hx = some (tx * s.scale_factor)) ∧
  (s.rpc = 3 → s.hx = some (tx * s.scale_factor) ∧
      s.hy = some (ty * s.scale_factor)) ∧
  (s.rpc = 4 → s.hx = some (tx * s.scale_factor) ∧
      s.hy = some (ty * s.scale_factor) ∧
      s.hz = some (tz * s.scale_factor))

/-! ## Helper lemmas -/

/-- The yaw rotation at angle zero is the identity transform:
`tf.euler_matrix(0, 0, 0, 'sxyz')` is the 4x4 identity. -/
lemma eulerZ_zero : eulerZ 0 = (1 : M4) := by
  ext i j
  fin_cases i <;> fin_cases j <;>
    simp [eulerZ, Matrix.one_apply, Matrix.vecHead, Matrix.vecTail]

/-- Folding the tag-loop body over a list containing no tag with the
landing id leaves the landing-target state untouched. -/
lemma foldl_tagStep_no_match (lid : ℕ) (tags : List Tag)
    (hnm : ∀ t ∈ tags, t.tag_id ≠ lid) :
    ∀ st : LTState, tags.foldl (tagStep lid) st = st := by
  induction tags with
  | nil => intro st; rfl
  | cons a l ih =>
    intro st
    have ha : tagStep lid st a = st := by
      unfold tagStep
      rw [if_neg (hnm a (by simp))]
    simp only [List.foldl_cons, ha]
    exact ih (fun t ht => hnm t (by simp [ht])) st

/-- An in-range confidence always produces the scaled percentage delta
message, whatever the previously emitted level. -/
lemma delta_msg_of_valid (conf : ℤ) (cur : Option ℤ)
    (h0 : 0 ≤ conf) (h3 : conf ≤ 3) :
    (send_confidence_level_dummy_message (some conf) cur).delta_msg
      = some ((conf : ℚ) * 100 / 3) := by
  simp only [send_confidence_level_dummy_message]
  rw [if_pos ⟨h0, h3⟩]
  split <;> rfl

/-- `atan2 0 x = 0` for positive `x`. -/
lemma atan2_zero_of_pos (x : ℝ) (hx : 0 < x) : atan2 0 x = 0 := by
  unfold atan2
  rw [if_pos hx, zero_div, Real.arctan_zero]

/-! ## Claim theorems -/

/-- C1 (counterexample): the Heading Reference is NOT latched one-way from
the first attitude sample.  Feeding yaws `0` then `1` to the attitude
callback (compass alignment enabled) leaves `heading_north_yaw = 1`, the
second value, not the first: both branches of `att_msg_callback` assign
`value.yaw`. -/
theorem heading_latch_counterexample :
    List.foldl att_msg_callback none [(0 : ℝ), 1] ≠ some 0 := by
  simp [att_msg_callback]

/-- C1 (amended): heading capture is not one-way; after any nonempty
sequence of attitude samples, the stored heading yaw equals the MOST
RECENT sample's yaw — every attitude sample re-latches the reference, the
branches differing only in log level. -/
theorem heading_latch_amended (h : Option ℝ) (ys : List ℝ) (y : ℝ) :
    List.foldl att_msg_callback h (ys ++ [y]) = some y := by
  rw [List.foldl_append]
  cases List.foldl att_msg_callback h ys <;> rfl

/-- C2 (counterexample): in an iteration whose detector results are
nonempty but contain no tag with the landing id (here a single tag with id
1 while the landing id is 0), the `is_landing_tag_detected` flag is NOT
cleared: the `else` clearing branch runs only when the result list is
empty. -/
theorem tag_flag_counterexample :
    (tagUpdate 0 ⟨true, some (tagTransform ⟨0, ![1, 2, 3]⟩)⟩
      [⟨1, ![4, 5, 6]⟩]).is_landing_tag_detected ≠ false := by
  intro h
  exact absurd h (by decide)

/-- C2 (amended): the flag is cleared (with the last geometry retained)
only in iterations where the detector returns NO tags at all; when tags
are present but none carries the landing id, both the flag and the last
geometry are retained unchanged. -/
theorem tag_flag_amended (lid : ℕ) (st : LTState) (tags : List Tag)
    (hnm : ∀ t ∈ tags, t.tag_id ≠ lid) :
    (tags = [] → tagUpdate lid st tags = ⟨false, st.H_camera_tag⟩) ∧
    (tags ≠ [] → tagUpdate lid st tags = st) := by
  constructor
  · rintro rfl; rfl
  · intro hne
    rcases tags with _ | ⟨a, l⟩
    · exact absurd rfl hne
    · show (a :: l).foldl (tagStep lid) st = st
      exact foldl_tagStep_no_match lid (a :: l) hnm st

theorem tag_flag_amended_witness :
    (∀ t ∈ [(⟨1, ![4, 5, 6]⟩ : Tag)], t.tag_id ≠ 0) ∧
    (([(⟨1, ![4, 5, 6]⟩ : Tag)] ≠ []) →
      tagUpdate 0 ⟨true, none⟩ [⟨1, ![4, 5, 6]⟩] = ⟨true, none⟩) :=
  ⟨by simp, (tag_flag_amended 0 ⟨true, none⟩ [⟨1, ![4, 5, 6]⟩] (by simp)).2⟩

/-- C3 (counterexample): when two tags with the landing id 0 are detected
in one frame, with translations (1,2,3) and (4,5,6), the resulting
landing-target geometry is NOT that of the first tag: the loop has no
`break`, so each matching tag overwrites `H_camera_tag`. -/
theorem first_tag_counterexample :
    tagUpdate 0 ⟨false, none⟩ [⟨0, ![1, 2, 3]⟩, ⟨0, ![4, 5, 6]⟩]
      ≠ ⟨true, some (tagTransform ⟨0, ![1, 2, 3]⟩)⟩ := by
  intro h
  have h2 : (some (tagTransform ⟨0, ![4, 5, 6]⟩) : Option M4)
      = some (tagTransform ⟨0, ![1, 2, 3]⟩) :=
    congrArg LTState.H_camera_tag h
  have h3 := Option.some.inj h2
  have h4 : (4 : ℝ) = 1 := Matrix.ext_iff.mpr h3 0 3
  norm_num at h4

/-- C3 (amended): when at least one tag matching the landing id is
detected in a frame, the LAST such tag is the one resolved into the
landing-target report; each matching tag overwrites the previous one, and
the flag is set. -/
theorem last_tag_amended (lid : ℕ) (st : LTState) (pre : List Tag) (t : Tag)
    (post : List Tag) (hmatch : t.tag_id = lid)
    (hpost : ∀ u ∈ post, u.tag_id ≠ lid) :
    tagUpdate lid st (pre ++ t :: post) = ⟨true, some (tagTransform t)⟩ := by
  have hne : tagUpdate lid st (pre ++ t :: post)
      = (pre ++ t :: post).foldl (tagStep lid) st := by
    rcases pre with _ | ⟨a, l⟩ <;> rfl
  rw [hne, List.foldl_append]
  have hstep : ∀ s : LTState, tagStep lid s t = ⟨true, some (tagTransform t)⟩ := by
    intro s; unfold tagStep; rw [if_pos hmatch]
  simp only [List.foldl_cons, hstep]
  exact foldl_tagStep_no_match lid post hpost _

theorem last_tag_amended_witness :
    ((⟨0, ![4, 5, 6]⟩ : Tag).tag_id = 0) ∧
    (∀ u ∈ ([] : List Tag), u.tag_id ≠ 0) ∧
    tagUpdate 0 ⟨false, none⟩ ([⟨0, ![1, 2, 3]⟩] ++ ⟨0, ![4, 5, 6]⟩ :: [])
      = ⟨true, some (tagTransform ⟨0, ![4, 5, 6]⟩)⟩ :=
  ⟨rfl, by simp,
    last_tag_amended 0 ⟨false, none⟩ [⟨0, ![1, 2, 3]⟩] ⟨0, ![4, 5, 6]⟩ []
      rfl (by simp)⟩

/-- C4 (counterexample): starting with no previously emitted confidence,
the sequence [2,2,2,3,3,1] issues 3 extra status notifications (the first
sample also fires, since `current_confidence is None` triggers the
notification branch), not the claimed 2. -/
theorem confidence_edge_counterexample :
    ¬ (runConfidence [2, 2, 2, 3, 3, 1] none).2 = 2 := by decide

/-- C4 (amended): starting from no previously emitted confidence level,
feeding [2,2,2,3,3,1] through the confidence task issues exactly 3 extra
status notifications (first sample, 2 to 3, and 3 to 1); a notification is
issued exactly when the sample's confidence differs from the previously
emitted one or none was previously emitted. -/
theorem confidence_edge_amended :
    runConfidence [2, 2, 2, 3, 3, 1] none = (some 1, 3) ∧
    (∀ (conf : ℤ) (cur : Option ℤ), 0 ≤ conf → conf ≤ 3 →
      ((send_confidence_level_dummy_message (some conf) cur).status_sent = true
        ↔ cur ≠ some conf)) := by
  refine ⟨by decide, ?_⟩
  intro conf cur h0 h3
  simp only [send_confidence_level_dummy_message]
  rw [if_pos ⟨h0, h3⟩]
  rcases cur with _ | c
  · simp
  · by_cases hc : c = conf
    · subst hc; simp
    · simp [hc]

theorem confidence_edge_amended_witness :
    (0 ≤ (3 : ℤ) ∧ (3 : ℤ) ≤ 3) ∧
    (((send_confidence_level_dummy_message (some 3) (some 2)).status_sent = true)
      ↔ (some 2 : Option ℤ) ≠ some 3) :=
  ⟨⟨by decide, by decide⟩,
    confidence_edge_amended.2 3 (some 2) (by decide) (by decide)⟩

/-- C8: on every confidence-task tick with a pose sample present (and its
confidence in the valid range 0..3, as the data model guarantees), the
task sends the confidence scaled to a percentage, exactly
`tracker_confidence * 100 / 3`, regardless of whether the level changed
since the previous send; levels 0,1,2,3 map to 0, 100/3, 200/3, 100. -/
theorem confidence_percent_confirmed (conf : ℤ) (cur : Option ℤ)
    (h0 : 0 ≤ conf) (h3 : conf ≤ 3) :
    (send_confidence_level_dummy_message (some conf) cur).delta_msg
      = some ((conf : ℚ) * 100 / 3) ∧
    (send_confidence_level_dummy_message (some 0) cur).delta_msg = some 0 ∧
    (send_confidence_level_dummy_message (some 1) cur).delta_msg = some (100 / 3) ∧
    (send_confidence_level_dummy_message (some 2) cur).delta_msg = some (200 / 3) ∧
    (send_confidence_level_dummy_message (some 3) cur).delta_msg = some 100 := by
  refine ⟨delta_msg_of_valid conf cur h0 h3, ?_, ?_, ?_, ?_⟩ <;>
    rw [delta_msg_of_valid _ cur (by decide) (by decide)] <;> norm_num

theorem confidence_percent_witness :
    (0 ≤ (2 : ℤ) ∧ (2 : ℤ) ≤ 3) ∧
    (send_confidence_level_dummy_message (some 2) (some 2)).delta_msg
      = some ((2 : ℚ) * 100 / 3) :=
  ⟨⟨by decide, by decide⟩,
    (confidence_percent_confirmed 2 (some 2) (by decide) (by decide)).1⟩

/-- C10: a pose sample whose tracker-confidence lies outside 0..3 makes
the confidence task send neither the percentage delta message nor a status
notification, and leaves the previously-emitted-confidence state
unchanged (only a warning is logged). -/
theorem confidence_invalid_confirmed (conf : ℤ) (cur : Option ℤ)
    (h : conf < 0 ∨ 3 < conf) :
    send_confidence_level_dummy_message (some conf) cur = ⟨cur, none, false⟩ := by
  simp only [send_confidence_level_dummy_message]
  rw [if_neg]
  rintro ⟨h0, h3⟩
  rcases h with h | h <;> omega

theorem confidence_invalid_witness :
    ((4 : ℤ) < 0 ∨ (3 : ℤ) < 4) ∧
    send_confidence_level_dummy_message (some 4) (some 2)
      = ⟨some 2, none, false⟩ :=
  ⟨Or.inr (by decide),
    confidence_invalid_confirmed 4 (some 2) (Or.inr (by decide))⟩

/-- C5: the main-loop pose processing realizes exactly the fixed
composition order of the spec: sensor-local transform from the sample's
quaternion with translation scaled by the Scale Factor; composed as
`mount_to_nav * sensor_local * sensor_body_to_autopilot_body`; conjugated
as `offset_transform * nav_pose * inverse(offset_transform)` when body
offset is enabled; right-composed with a yaw-only rotation when a Heading
Reference is set.  (In the program a Heading Reference can only exist when
compass alignment is enabled, the hypothesis below.) -/
theorem navpose_composition_confirmed
    (A B : M4) (boe : ℕ) (ox oy oz : ℝ) (ce : ℕ) (heading : Option ℝ)
    (s qw qx qy qz tx ty tz : ℝ)
    (hcomp : heading ≠ none → ce = 1) :
    processPose A B boe ox oy oz ce heading s qw qx qy qz tx ty tz
      = specNavPose A B boe ![ox, oy, oz] heading s qw qx qy qz tx ty tz := by
  have hv : (![tx * s, ty * s, tz * s] : Fin 3 → ℝ)
      = ![s * tx, s * ty, s * tz] := by
    funext i; fin_cases i <;> simp [mul_comm]
  simp only [processPose, specNavPose, hv, eulerZ_zero, ← mul_assoc]
  rcases heading with _ | h
  · by_cases hce : ce = 1 <;> simp [hce]
  · have hce : ce = 1 := hcomp (by simp)
    simp [hce]

theorem navpose_composition_witness :
    ((some (0 : ℝ) : Option ℝ) ≠ none → (1 : ℕ) = 1) ∧
    processPose H_aeroRef_T265Ref H_T265body_aeroBody_down
        1 (5 / 100) 0 0 1 (some 0) 1 1 0 0 0 0 0 0
      = specNavPose H_aeroRef_T265Ref H_T265body_aeroBody_down
        1 ![5 / 100, 0, 0] (some 0) 1 1 0 0 0 0 0 0 :=
  ⟨fun _ => rfl,
    navpose_composition_confirmed H_aeroRef_T265Ref H_T265body_aeroBody_down
      1 (5 / 100) 0 0 1 (some 0) 1 1 0 0 0 0 0 0 (fun _ => rfl)⟩

/-- C6: for a stored camera-relative target translation (x, y, z) with
z nonzero, the landing-target message carries
`x_offset = atan2 x z`, `y_offset = atan2 y z` and slant range
`sqrt (x^2 + y^2 + z^2)`; in particular for (1/10, 0, 2) the angular
offsets are `atan2 (1/10) 2` and `0`, and the range is
`sqrt ((1/10)^2 + 2^2)`. -/
theorem landing_bearing_confirmed (H : M4) (hz : H 2 3 ≠ 0) :
    send_land_target_message ⟨true, some H⟩
      = some ⟨atan2 (H 0 3) (H 2 3), atan2 (H 1 3) (H 2 3),
          Real.sqrt (H 0 3 * H 0 3 + H 1 3 * H 1 3 + H 2 3 * H 2 3)⟩ ∧
    send_land_target_message ⟨true, some (tagTransform ⟨0, ![1 / 10, 0, 2]⟩)⟩
      = some ⟨atan2 (1 / 10) 2, 0, Real.sqrt ((1 / 10) ^ 2 + 2 ^ 2)⟩ := by
  constructor
  · show (if H 2 3 = 0 then none else _) = _
    rw [if_neg hz]
  · have e : send_land_target_message
        ⟨true, some (tagTransform ⟨0, ![1 / 10, 0, 2]⟩)⟩
        = if (2 : ℝ) = 0 then none
          else some ⟨atan2 (1 / 10) 2, atan2 0 2,
            Real.sqrt (1 / 10 * (1 / 10) + 0 * 0 + 2 * 2)⟩ := rfl
    rw [e, if_neg (two_ne_zero),
      atan2_zero_of_pos 2 (by norm_num),
      show (1 / 10 * (1 / 10) + 0 * 0 + 2 * 2 : ℝ) = (1 / 10) ^ 2 + 2 ^ 2 by ring]

/-- The concrete `H_camera_tag` used to instantiate the landing-target
claims: translation (1/10, 0, 2). -/
noncomputable def landingWitnessH : M4 := tagTransform ⟨0, ![1 / 10, 0, 2]⟩

theorem landing_bearing_witness :
    landingWitnessH 2 3 ≠ 0 ∧
    send_land_target_message ⟨true, some landingWitnessH⟩
      = some ⟨atan2 (landingWitnessH 0 3) (landingWitnessH 2 3),
          atan2 (landingWitnessH 1 3) (landingWitnessH 2 3),
          Real.sqrt (landingWitnessH 0 3 * landingWitnessH 0 3
            + landingWitnessH 1 3 * landingWitnessH 1 3
            + landingWitnessH 2 3 * landingWitnessH 2 3)⟩ :=
  ⟨show (2 : ℝ) ≠ 0 from two_ne_zero,
    (landing_bearing_confirmed landingWitnessH
      (show (2 : ℝ) ≠ 0 from two_ne_zero)).1⟩

/-- C7: when the stored camera-relative translation has z = 0, the
landing-target sender returns before computing any bearing: no message is
emitted and no exception is raised (the embedding is a total function
returning `none`), and since the sender performs no writes, the stored
report is neither sent nor updated and the same send logic simply runs
again at the next scheduled tick. -/
theorem landing_zero_z_confirmed (b : Bool) (H : M4) (hz : H 2 3 = 0) :
    send_land_target_message ⟨b, some H⟩ = none := by
  cases b
  · rfl
  · show (if H 2 3 = 0 then none else _) = none
    rw [if_pos hz]

theorem landing_zero_z_witness :
    (tagTransform ⟨0, ![1, 1, 0]⟩ 2 3 = 0) ∧
    send_land_target_message ⟨true, some (tagTransform ⟨0, ![1, 1, 0]⟩)⟩
      = none :=
  ⟨rfl, landing_zero_z_confirmed true (tagTransform ⟨0, ![1, 1, 0]⟩) rfl⟩

/-- The initial state satisfies the lock invariant. -/
lemma scaleInv_init (tx ty tz s0 : ℚ) : ScaleInv tx ty tz (ScaleInit s0) := by
  refine ⟨?_, ?_, ?_, ?_, ?_⟩ <;> intro h <;> simp [ScaleInit] at h

/-- Every step of either thread preserves the lock invariant. -/
lemma scaleInv_step (tx ty tz : ℚ) {s s' : ScaleSys}
    (hstep : ScaleStep tx ty tz s s') (hinv : ScaleInv tx ty tz s) :
    ScaleInv tx ty tz s' := by
  obtain ⟨hr, hw, h2, h3, h4⟩ := hinv
  cases hstep with
  | rAcq h1 hpc =>
    refine ⟨fun _ => rfl, ?_, ?_, ?_, ?_⟩
    · intro hwn
      have hww := hw hwn
      rw [h1] at hww
      exact Option.noConfusion hww
    · intro hh; simp at hh
    · intro hh; simp at hh
    · intro hh; simp at hh
  | rWX h =>
    refine ⟨?_, ?_, fun _ => rfl, ?_, ?_⟩
    · intro _; exact hr (by simp [h])
    · intro hwn; exact hw hwn
    · intro hh; simp at hh
    · intro hh; simp at hh
  | rWY h =>
    refine ⟨?_, ?_, ?_, ?_, ?_⟩
    · intro _; exact hr (by simp [h])
    · intro hwn; exact hw hwn
    · intro hh; simp at hh
    · intro _; exact ⟨h2 h, rfl⟩
    · intro hh; simp at hh
  | rWZ h =>
    refine ⟨?_, ?_, ?_, ?_, ?_⟩
    · intro _; exact hr (by simp [h])
    · intro hwn; exact hw hwn
    · intro hh; simp at hh
    · intro hh; simp at hh
    · intro _; exact ⟨(h3 h).1, (h3 h).2, rfl⟩
  | rRel h =>
    refine ⟨?_, ?_, ?_, ?_, ?_⟩
    · intro h0; exact absurd rfl h0
    · intro hwn
      have hA := hw hwn
      have hB := hr (by simp [h])
      rw [hA] at hB
      exact absurd (Option.some.inj hB) (by decide)
    · intro hh; simp at hh
    · intro hh; simp at hh
    · intro hh; simp at hh
  | wAcq h1 hpc =>
    refine ⟨?_, fun _ => rfl, ?_, ?_, ?_⟩
    · intro hrn
      have hrr := hr hrn
      rw [h1] at hrr
      exact Option.noConfusion hrr
    · intro hh; exact h2 hh
    · intro hh; exact h3 hh
    · intro hh; exact h4 hh
  | wSet v h =>
    have hlockw : s.lock = some .writer := hw (by simp [h])
    have hrzero : s.rpc = 0 := by
      by_contra hn
      have hrr := hr hn
      rw [hlockw] at hrr
      exact absurd (Option.some.inj hrr) (by decide)
    refine ⟨?_, ?_, ?_, ?_, ?_⟩
    · intro hrn; exact hr hrn
    · intro _; exact hlockw
    · intro hh
      have hh2 : s.rpc = 2 := hh
      rw [hrzero] at hh2
      exact absurd hh2 (by decide)
    · intro hh
      have hh2 : s.rpc = 3 := hh
      rw [hrzero] at hh2
      exact absurd hh2 (by decide)
    · intro hh
      have hh2 : s.rpc = 4 := hh
      rw [hrzero] at hh2
      exact absurd hh2 (by decide)
  | wRel h =>
    have hlockw : s.lock = some .writer := hw (by simp [h])
    refine ⟨?_, ?_, ?_, ?_, ?_⟩
    · intro hrn
      have hrr := hr hrn
      rw [hlockw] at hrr
      exact absurd (Option.some.inj hrr) (by decide)
    · intro h0; exact absurd rfl h0
    · intro hh; exact h2 hh
    · intro hh; exact h3 hh
    · intro hh; exact h4 hh

/-- C9: Scale Factor updates from the calibration thread are serialized
by `frame_mutex` against the read-and-scale writes of the acquisition
loop: in every reachable interleaving, at the moment the acquisition loop
has just written all three translation components (reader program counter
4, still inside the critical section), the writer is outside its critical
section and all three components were scaled by the one scale value that
is still current — no component mixes a different scale value. -/
theorem scale_lock_confirmed (tx ty tz s0 : ℚ) (s : ScaleSys)
    (hreach : ScaleReachable tx ty tz s0 s) (hrpc : s.rpc = 4) :
    s.wpc = 0 ∧
    s.hx = some (tx * s.scale_factor) ∧
    s.hy = some (ty * s.scale_factor) ∧
    s.hz = some (tz * s.scale_factor) := by
  have hinv : ScaleInv tx ty tz s := by
    clear hrpc
    induction hreach with
    | refl => exact scaleInv_init tx ty tz s0
    | tail _ hstep ih => exact scaleInv_step tx ty tz hstep ih
  obtain ⟨hr, hw, _, _, hc4⟩ := hinv
  have hlock : s.lock = some .reader := hr (by simp [hrpc])
  have hwpc : s.wpc = 0 := by
    by_contra hn
    have := hw hn
    rw [hlock] at this
    exact absurd (Option.some.inj this) (by decide)
  exact ⟨hwpc, (hc4 hrpc).1, (hc4 hrpc).2.1, (hc4 hrpc).2.2⟩

/-- The state of the scale-lock system after the acquisition loop has
acquired the lock and written all three scaled components, starting from
scale 5 with sample translation (1, 2, 3). -/
def scaleS4 : ScaleSys :=
  ⟨some .reader, 4, 0, 5, some (1 * 5), some (2 * 5), some (3 * 5)⟩

theorem scale_lock_witness :
    ScaleReachable 1 2 3 5 scaleS4 ∧ scaleS4.rpc = 4 ∧
    (scaleS4.wpc = 0 ∧
      scaleS4.hx = some (1 * scaleS4.scale_factor) ∧
      scaleS4.hy = some (2 * scaleS4.scale_factor) ∧
      scaleS4.hz = some (3 * scaleS4.scale_factor)) := by
  have tr : ScaleReachable 1 2 3 5 scaleS4 :=
    Relation.ReflTransGen.tail
      (Relation.ReflTransGen.tail
        (Relation.ReflTransGen.tail
          (Relation.ReflTransGen.tail Relation.ReflTransGen.refl
            (ScaleStep.rAcq (ScaleInit 5) rfl rfl))
          (ScaleStep.rWX _ rfl))
        (ScaleStep.rWY _ rfl))
      (ScaleStep.rWZ _ rfl)
  exact ⟨tr, rfl, scale_lock_confirmed 1 2 3 5 scaleS4 tr rfl⟩
